import Mathlib

/-!
Verification development for the healthcare appointment/verification repository.

The hosted document database is modelled as a list of records; timestamps are
naturals (abstract time units); each server action is embedded as a pure
function from the pre-state to the result and post-state.  Fallible
collaborator calls (database, blob storage, SMS provider) are modelled by an
explicit parameter saying which call, if any, throws; a thrown call transfers
control to the surrounding `catch` exactly as in the source.
-/

namespace Healthcare

/-- Record stored in the verification collection
(`src/lib/actions/verification.actions.ts`): phone, 6-digit code, expiry
timestamp, attempt counter, verified flag.  `id` is the Appwrite document id. -/
structure VerificationRecord where
  id : Nat
  phone : String
  code : String
  expiresAt : Nat
  attempts : Nat
  verified : Bool
deriving Repr, DecidableEq

/-- Filter used by both `sendVerificationSMS` and `verifyCode`:
`Query.equal("phone", [phone])` together with
`Query.greaterThan("expiresAt", now)`. -/
def unexpiredFor (phone : String) (now : Nat) (r : VerificationRecord) : Bool :=
  r.phone == phone && decide (now < r.expiresAt)

/-- Result object `{ success, message }` returned by the verification actions. -/
structure ActionResult where
  success : Bool
  message : String
deriving Repr, DecidableEq

/-- Expiration window: `expiresAt.setMinutes(expiresAt.getMinutes() + 10)`,
ten minutes expressed in seconds (the abstract time unit). -/
def tenMinutes : Nat := 600

/-- Code generator `Math.floor(100000 + Math.random() * 900000).toString()`.
Randomness is modelled by the parameter `n`, standing for
`Math.floor(Math.random() * 900000)`, so `n < 900000` on every real execution;
`.toString()` on a positive integer yields its decimal digit string,
most significant digit first, modelled with `Nat.digits`. -/
def generateVerificationCode (n : Nat) : String :=
  String.mk (((Nat.digits 10 (100000 + n)).reverse).map Nat.digitChar)

/-- Collaborator calls made by `sendVerificationSMS`, in source order:
`listDocuments`, `deleteDocument` (loop), `createDocument`, Twilio
`messages.create`. -/
inductive SendStep where
  | listDocs
  | deleteDoc
  | createDoc
  | sms
deriving Repr, DecidableEq

/-- Generic failure returned by the `catch` block of `sendVerificationSMS`. -/
def sendFailure : ActionResult :=
  { success := false
    message := "Failed to send verification code. Please try again." }

/-- Embedding of `sendVerificationSMS` (verification.actions.ts):
lists the unexpired records for the phone, deletes each of them, creates a
fresh record (`attempts = 0`, `verified = false`, `expiresAt = now + 10min`)
and sends the SMS.  `failAt` names the collaborator call that throws, if any;
a throw lands in the `catch` block, which returns `sendFailure` with the
database left exactly as the completed calls left it (no rollback).
A `deleteDoc` failure can only occur when the deletion loop actually runs,
i.e. when at least one unexpired record exists. -/
def sendVerificationSMS (db : List VerificationRecord) (phone : String)
    (now : Nat) (newId : Nat) (rand : Nat) (failAt : Option SendStep) :
    ActionResult × List VerificationRecord :=
  if failAt = some SendStep.listDocs then
    (sendFailure, db)
  else
    let existing := db.filter (unexpiredFor phone now)
    if failAt = some SendStep.deleteDoc ∧ existing ≠ [] then
      -- the first deleteDocument call of the loop throws
      (sendFailure, db)
    else
      let db1 := db.filter (fun r => !(unexpiredFor phone now r))
      if failAt = some SendStep.createDoc then
        (sendFailure, db1)
      else
        let newRec : VerificationRecord :=
          { id := newId
            phone := phone
            code := generateVerificationCode rand
            expiresAt := now + tenMinutes
            attempts := 0
            verified := false }
        let db2 := db1 ++ [newRec]
        if failAt = some SendStep.sms then
          (sendFailure, db2)
        else
          ({ success := true, message := "Verification code sent" }, db2)

/-- Embedding of `verifyCode` (verification.actions.ts): fetches the unexpired
records for the phone, fails when none exist, succeeds immediately when the
first is already verified, otherwise increments `attempts`; at 5 the record is
deleted and the call fails; otherwise the incremented counter is persisted and
the submitted code is compared with the stored one. -/
def verifyCode (db : List VerificationRecord) (phone : String) (code : String)
    (now : Nat) : ActionResult × List VerificationRecord :=
  match db.filter (unexpiredFor phone now) with
  | [] =>
      ({ success := false
         message := "Verification code expired or not found. Please request a new code." },
       db)
  | v :: _ =>
      if v.verified then
        ({ success := true, message := "Phone already verified" }, db)
      else
        let attempts := v.attempts + 1
        if 5 ≤ attempts then
          ({ success := false
             message := "Too many failed attempts. Please request a new code." },
           db.filter (fun r => !(r.id == v.id)))
        else
          let db1 := db.map (fun r => if r.id == v.id then { r with attempts := attempts } else r)
          if v.code ≠ code then
            ({ success := false
               message := s!"Invalid code. {5 - attempts} attempts remaining." },
             db1)
          else
            ({ success := true, message := "Phone verified successfully" },
             db1.map (fun r => if r.id == v.id then { r with verified := true } else r))

/-- Embedding of `isPhoneVerified`: true iff a verified, unexpired record
exists for the phone. -/
def isPhoneVerified (db : List VerificationRecord) (phone : String) (now : Nat) : Bool :=
  (db.filter (fun r => unexpiredFor phone now r && r.verified)) ≠ []

/-! Doctor directory (`createDoctor` / `deleteDoctor`, second half of the
actions file).  A JavaScript `Date` built from an ISO-like string is modelled
by that string itself. -/

/-- Helper for `jsSplit`: strips `sep` from the front of `s`, returning the
rest when `sep` is a prefix and `none` otherwise. -/
def stripSep : List Char → List Char → Option (List Char)
  | [], s => some s
  | _ :: _, [] => none
  | a :: as, b :: bs => if a = b then stripSep as bs else none

/-- Fuel-driven worker for `jsSplit`: scans `s` left to right, cutting at each
occurrence of the (non-empty) separator.  `fuel` only bounds the recursion;
`jsSplit` supplies enough for the whole string. -/
def splitChars (sep : List Char) : Nat → List Char → List Char → List (List Char)
  | 0, _, acc => [acc.reverse]
  | fuel + 1, s, acc =>
    match s with
    | [] => [acc.reverse]
    | c :: rest =>
      match stripSep sep s with
      | some remaining => acc.reverse :: splitChars sep fuel remaining []
      | none => splitChars sep fuel rest (c :: acc)

/-- JavaScript `string.split(sep)` for a non-empty separator: the pieces of
`s` between non-overlapping occurrences of `sep`, scanned left to right. -/
def jsSplit (s sep : String) : List String :=
  (splitChars sep.data (s.data.length + 1) s.data []).map String.mk

/-- Availability timestamps computed by `createDoctor`: the first availability
entry (format `"HH:MM - HH:MM"`) is split on `" - "`, and each half is glued
to today's date string as `` `${dateString}T${time}` ``.  `availabilityDisplay`
is a clone of the start timestamp. -/
structure DoctorTimes where
  availability : String
  availabilityEndTime : String
  availabilityDisplay : String
deriving Repr, DecidableEq

/-- Embedding of the availability computation inside `createDoctor`:
`availability[0].split(" - ")` destructured into start and end times, each
combined with the creation date `dateString` (today, `YYYY-MM-DD`). -/
def createDoctorTimes (availability : List String) (dateString : String) : DoctorTimes :=
  let availabilityRangeString := availability.headD ""
  let parts := jsSplit availabilityRangeString " - "
  let startTime := parts.headD ""
  let endTime := (parts.drop 1).headD ""
  let availabilityDateTime := dateString ++ "T" ++ startTime
  let availabilityEndDateTime := dateString ++ "T" ++ endTime
  { availability := availabilityDateTime
    availabilityEndTime := availabilityEndDateTime
    availabilityDisplay := availabilityDateTime }

/-- Default doctor image used when no file is uploaded, and the marker checked
by `deleteDoctor`. -/
def doctorPlaceholder : String := "/assets/icons/doctor-placeholder.svg"

/-- JavaScript `string.includes(sub)` for the non-empty separators used here:
the split yields more than one piece exactly when `sub` occurs in `s`. -/
def strIncludes (s sub : String) : Bool :=
  1 < (jsSplit s sub).length

/-- File-id extraction in `deleteDoctor`:
`image.split("/files/")[1].split("/view")[0]`.  When `"/files/"` does not
occur, indexing `[1]` yields `undefined` and the subsequent `.split` throws a
`TypeError` (caught by the inner catch); that case is `none`. -/
def extractFileId (image : String) : Option String :=
  match jsSplit image "/files/" with
  | _ :: rest :: _ => some ((jsSplit rest "/view").headD rest)
  | _ => none

/-- Observable outcome of a `deleteDoctor` call that reached the delete logic:
whether a blob deletion was attempted, and the `{ success: true }` payload. -/
structure DeleteDoctorOutcome where
  blobDeleteAttempted : Bool
  documentDeleted : Bool
  success : Bool
deriving Repr, DecidableEq

/-- Embedding of `deleteDoctor` after the document fetch: when the stored
image is truthy and does not contain the placeholder path, the blob deletion
is attempted inside an inner try/catch whose failures (bad URL shape or a
`storage.deleteFile` throw, flagged by `blobDeleteFails`) are logged and
swallowed; the document deletion then runs either way.  `docDeleteFails`
models `databases.deleteDocument` throwing, which the outer catch rethrows. -/
def deleteDoctor (image : String) (blobDeleteFails : Bool) (docDeleteFails : Bool) :
    Except String DeleteDoctorOutcome :=
  let wantsBlobDelete := image ≠ "" && !(strIncludes image doctorPlaceholder)
  let blobDeleteAttempted :=
    if wantsBlobDelete then
      match extractFileId image, blobDeleteFails with
      | some _, false => true   -- deleteFile succeeded
      | some _, true => true    -- deleteFile threw; inner catch swallows
      | none, _ => true         -- extraction threw; inner catch swallows
    else
      false
  if docDeleteFails then
    Except.error "Error deleting doctor"
  else
    Except.ok
      { blobDeleteAttempted := blobDeleteAttempted
        documentDeleted := true
        success := true }

/-! Appointment lifecycle.  The submit handler `handleAppointmentSubmit`
(`src/components/forms/AppointmentForm.tsx`, identical in the other form
variants) is in the sources; the server actions `createAppointment` /
`updateAppointment` and the zod schemas of `lib/validation.ts` are not, and
are modelled from the spec. -/

/-- Appointment status flag. -/
inductive Status where
  | pending
  | scheduled
  | cancelled
deriving Repr, DecidableEq

/-- Discriminator `type` of the appointment form. -/
inductive FormType where
  | create
  | schedule
  | cancel
deriving Repr, DecidableEq

/-- Status derived from `type` by the `switch` at the top of
`handleAppointmentSubmit`. -/
def statusOfType : FormType → Status
  | FormType.schedule => Status.scheduled
  | FormType.cancel => Status.cancelled
  | FormType.create => Status.pending

/-- Values held by the appointment form (`z.infer` of the schema); the form
defaults `cancellationReason` to the appointment's stored value or `""`. -/
structure AppointmentFormValues where
  primaryPhysician : String
  schedule : Nat
  reason : String
  note : String
  cancellationReason : String
deriving Repr, DecidableEq

/-- Payload `appointmentInfo` built on the create path of
`handleAppointmentSubmit` (no `cancellationReason` key). -/
structure CreateAppointmentInfo where
  userId : String
  patient : String
  primaryPhysician : String
  schedule : Nat
  reason : String
  status : Status
  note : String
deriving Repr, DecidableEq

/-- Patch `appointmentToUpdate.appointment` built on the update path of
`handleAppointmentSubmit`: it always carries `cancellationReason`. -/
structure AppointmentPatch where
  primaryPhysician : String
  schedule : Nat
  status : Status
  cancellationReason : String
deriving Repr, DecidableEq

/-- What the submit handler does: stash a create payload and open the payment
step, or call `updateAppointment` with a patch. -/
inductive SubmitOutcome where
  | startPayment (info : CreateAppointmentInfo)
  | update (patch : AppointmentPatch)
deriving Repr, DecidableEq

/-- Embedding of `handleAppointmentSubmit`: derives `status` from `type`;
on `type === "create" && patientId` builds `appointmentInfo` (without any
cancellation reason) for the payment step, otherwise builds the update patch
carrying `values.cancellationReason` verbatim — for every `type`. -/
def handleAppointmentSubmit (ty : FormType) (patientId : Option String)
    (userId : String) (values : AppointmentFormValues) : SubmitOutcome :=
  let status := statusOfType ty
  match ty, patientId with
  | FormType.create, some pid =>
      SubmitOutcome.startPayment
        { userId := userId
          patient := pid
          primaryPhysician := values.primaryPhysician
          schedule := values.schedule
          reason := values.reason
          status := status
          note := values.note }
  | _, _ =>
      SubmitOutcome.update
        { primaryPhysician := values.primaryPhysician
          schedule := values.schedule
          status := status
          cancellationReason := values.cancellationReason }

/-- Stored appointment document.  `cancellationReason` is `none` when the
field was never written. -/
structure Appointment where
  primaryPhysician : String
  schedule : Nat
  status : Status
  reason : String
  note : String
  cancellationReason : Option String
deriving Repr, DecidableEq

/-- Modelled from the spec: `create(appointmentInfo)` "persists a new document
with status `pending`" (the create payload carries no cancellation reason, so
the stored field stays unset).  The server action `createAppointment` of
`appointment.actions.ts` is not among the sources. -/
def createAppointment (info : CreateAppointmentInfo) : Appointment :=
  { primaryPhysician := info.primaryPhysician
    schedule := info.schedule
    status := info.status
    reason := info.reason
    note := info.note
    cancellationReason := none }

/-- Modelled from the spec: `update(appointmentId, patch, type)` applies the
patch fields to the stored document.  The server action `updateAppointment`
of `appointment.actions.ts` is not among the sources. -/
def updateAppointment (a : Appointment) (patch : AppointmentPatch) : Appointment :=
  { a with
    primaryPhysician := patch.primaryPhysician
    schedule := patch.schedule
    status := patch.status
    cancellationReason := some patch.cancellationReason }

/-- Modelled from the spec: the cancel variant of the appointment schema makes
`cancellationReason` mandatory ("for cancellation, a mandatory
`cancellationReason`").  `lib/validation.ts` is not among the sources. -/
def cancelFormValid (values : AppointmentFormValues) : Bool :=
  values.cancellationReason ≠ ""

/-- A stored `cancellationReason` counts as populated when it is present and
non-empty. -/
def reasonPopulated (a : Appointment) : Bool :=
  a.cancellationReason.getD "" ≠ ""

/-! Helper lemmas. -/

/-- Filtering with `p` after keeping only the elements refuting `p` leaves
nothing. -/
theorem filter_after_filter_not {α : Type} (p : α → Bool) (l : List α) :
    (l.filter (fun a => !(p a))).filter p = [] := by
  rw [List.filter_filter]
  simp

/-- Filtering commutes with mapping a function that preserves the predicate. -/
theorem filter_map_preserve {α : Type} {p : α → Bool} (f : α → α)
    (hf : ∀ a, p (f a) = p a) (l : List α) :
    (l.map f).filter p = (l.filter p).map f := by
  rw [List.filter_map]
  congr 1
  apply List.filter_congr
  intro a _
  exact hf a

/-- Database state after a `sendVerificationSMS` call that got past the
`createDocument` step (success, or an SMS-dispatch failure): the unexpired
records for the phone are exactly the fresh one. -/
theorem sendVerificationSMS_post_filter (db : List VerificationRecord)
    (phone : String) (now newId rand : Nat) (failAt : Option SendStep)
    (h : failAt = none ∨ failAt = some SendStep.sms) :
    ((sendVerificationSMS db phone now newId rand failAt).2).filter (unexpiredFor phone now) =
      [{ id := newId, phone := phone, code := generateVerificationCode rand,
         expiresAt := now + tenMinutes, attempts := 0, verified := false }] := by
  rcases h with rfl | rfl <;>
    simp [sendVerificationSMS, List.filter_append, filter_after_filter_not,
      unexpiredFor, tenMinutes]

/-- Every digit character below the base 10 is an ASCII digit. -/
theorem digitChar_isDigit : ∀ d < 10, (Nat.digitChar d).isDigit = true := by
  decide

/-- C2: after any successful `sendVerificationSMS` call — including a second
call in direct succession — at most one unexpired verification record exists
for the phone: the call deletes every unexpired record for the phone before
storing the single new one. -/
theorem sendCode_at_most_one_unexpired (db : List VerificationRecord)
    (phone : String) (now newId rand : Nat) :
    (sendVerificationSMS db phone now newId rand none).1.success = true ∧
    (((sendVerificationSMS db phone now newId rand none).2).filter
      (unexpiredFor phone now)).length ≤ 1 ∧
    ∀ now2 newId2 rand2 : Nat,
      (((sendVerificationSMS ((sendVerificationSMS db phone now newId rand none).2)
          phone now2 newId2 rand2 none).2).filter (unexpiredFor phone now2)).length ≤ 1 := by
  refine ⟨by simp [sendVerificationSMS], ?_, ?_⟩
  · rw [sendVerificationSMS_post_filter db phone now newId rand none (Or.inl rfl)]
    simp
  · intro now2 newId2 rand2
    rw [sendVerificationSMS_post_filter _ phone now2 newId2 rand2 none (Or.inl rfl)]
    simp

/-- C8: whichever collaborator call of `sendVerificationSMS` throws (the
deletion loop only runs when an unexpired record exists), the error is caught
and the call returns the one generic failure result; no exception escapes and
the cause is not distinguished. -/
theorem sendCode_collaborator_failure_generic (db : List VerificationRecord)
    (phone : String) (now newId rand : Nat) (s : SendStep)
    (hdel : s = SendStep.deleteDoc → db.filter (unexpiredFor phone now) ≠ []) :
    (sendVerificationSMS db phone now newId rand (some s)).1 = sendFailure := by
  cases s with
  | listDocs => simp [sendVerificationSMS]
  | deleteDoc =>
      have h := hdel rfl
      simp [sendVerificationSMS, h]
  | createDoc => simp [sendVerificationSMS]
  | sms => simp [sendVerificationSMS]

/-- C8 witness: a database call failure on a concrete state yields the generic
failure result. -/
theorem sendCode_collaborator_failure_generic_witness :
    (([⟨1, "p", "123456", 10, 0, false⟩] : List VerificationRecord).filter
        (unexpiredFor "p" 0)) ≠ [] ∧
    (sendVerificationSMS [⟨1, "p", "123456", 10, 0, false⟩] "p" 0 2 7
        (some SendStep.deleteDoc)).1 = sendFailure :=
  ⟨by decide, sendCode_collaborator_failure_generic _ _ _ _ _ _ (by decide)⟩

/-- C10: when the SMS dispatch throws after the new record was created,
`sendVerificationSMS` reports failure, yet the freshly created, unexpired
record (with its undelivered code) remains stored for the phone. -/
theorem sendCode_sms_failure_leaves_record (db : List VerificationRecord)
    (phone : String) (now newId rand : Nat) :
    (sendVerificationSMS db phone now newId rand (some SendStep.sms)).1 = sendFailure ∧
    ((sendVerificationSMS db phone now newId rand (some SendStep.sms)).2).filter
        (unexpiredFor phone now) =
      [{ id := newId, phone := phone, code := generateVerificationCode rand,
         expiresAt := now + tenMinutes, attempts := 0, verified := false }] := by
  constructor
  · simp [sendVerificationSMS]
  · exact sendVerificationSMS_post_filter db phone now newId rand _ (Or.inr rfl)

/-- C9: every generated verification code is the decimal representation of an
integer between 100000 and 999999 inclusive, hence a string of exactly 6
characters, all of them digits. -/
theorem generateVerificationCode_six_digits (n : Nat) (h : n < 900000) :
    100000 ≤ 100000 + n ∧ 100000 + n ≤ 999999 ∧
    (generateVerificationCode n).length = 6 ∧
    (generateVerificationCode n).data.all Char.isDigit = true := by
  refine ⟨Nat.le_add_right _ _, by omega, ?_, ?_⟩
  · have h1 : 10 ^ 5 ≤ 100000 + n := by
      have h10 : (10 : Nat) ^ 5 = 100000 := by norm_num
      omega
    have h2 : 100000 + n < 10 ^ 6 := by
      have h10 : (10 : Nat) ^ 6 = 1000000 := by norm_num
      omega
    have hlog : Nat.log 10 (100000 + n) = 5 :=
      Nat.log_eq_of_pow_le_of_lt_pow h1 h2
    have hlen : (Nat.digits 10 (100000 + n)).length = 6 := by
      rw [Nat.digits_len 10 _ (by norm_num) (by omega), hlog]
    show (((Nat.digits 10 (100000 + n)).reverse).map Nat.digitChar).length = 6
    rw [List.length_map, List.length_reverse, hlen]
  · show (((Nat.digits 10 (100000 + n)).reverse).map Nat.digitChar).all Char.isDigit = true
    rw [List.all_eq_true]
    intro c hc
    obtain ⟨d, hd, rfl⟩ := List.mem_map.mp hc
    exact digitChar_isDigit d (Nat.digits_lt_base (by norm_num) (List.mem_reverse.mp hd))

/-- C9 witness: the code generated from a concrete random draw is a 6-digit
numeric string for a value in range. -/
theorem generateVerificationCode_six_digits_witness :
    123456 < 900000 ∧
    (100000 ≤ 100000 + 123456 ∧ 100000 + 123456 ≤ 999999 ∧
      (generateVerificationCode 123456).length = 6 ∧
      (generateVerificationCode 123456).data.all Char.isDigit = true) :=
  ⟨by decide, generateVerificationCode_six_digits 123456 (by decide)⟩

/-- C4: when the single unexpired record for the phone is already verified,
`verifyCode` returns success for any submitted code and leaves the database —
in particular the attempts counter — untouched, so re-checks are idempotent. -/
theorem verifyCode_already_verified (db : List VerificationRecord)
    (phone code : String) (now : Nat) (r : VerificationRecord)
    (hq : db.filter (unexpiredFor phone now) = [r]) (hv : r.verified = true) :
    verifyCode db phone code now =
      ({ success := true, message := "Phone already verified" }, db) := by
  unfold verifyCode
  rw [hq]
  simp [hv]

/-- C4 witness: re-checking an already verified concrete record succeeds with
any code and changes nothing. -/
theorem verifyCode_already_verified_witness :
    (([⟨1, "p", "111111", 10, 2, true⟩] : List VerificationRecord).filter
        (unexpiredFor "p" 0) = [⟨1, "p", "111111", 10, 2, true⟩]) ∧
    verifyCode [⟨1, "p", "111111", 10, 2, true⟩] "p" "000000" 0 =
      ({ success := true, message := "Phone already verified" },
       [⟨1, "p", "111111", 10, 2, true⟩]) :=
  ⟨by decide, verifyCode_already_verified _ _ _ _ ⟨1, "p", "111111", 10, 2, true⟩ (by decide) rfl⟩

/-- C5: submitting the stored code against the single unexpired, unverified
record with at most 3 prior attempts persists the incremented counter, sets
`verified = true` and returns success. -/
theorem verifyCode_correct_code_success (db : List VerificationRecord)
    (phone : String) (now : Nat) (r : VerificationRecord)
    (hq : db.filter (unexpiredFor phone now) = [r])
    (hv : r.verified = false) (ha : r.attempts ≤ 3) :
    (verifyCode db phone r.code now).1 =
      { success := true, message := "Phone verified successfully" } ∧
    ((verifyCode db phone r.code now).2).filter (unexpiredFor phone now) =
      [{ r with attempts := r.attempts + 1, verified := true }] := by
  have h5 : ¬ (5 ≤ r.attempts + 1) := by omega
  have hstep : verifyCode db phone r.code now =
      ({ success := true, message := "Phone verified successfully" },
       (db.map (fun x => if x.id == r.id then { x with attempts := r.attempts + 1 } else x)).map
         (fun x => if x.id == r.id then { x with verified := true } else x)) := by
    unfold verifyCode
    rw [hq]
    simp [hv, h5]
  have hf1 : ∀ x : VerificationRecord,
      unexpiredFor phone now (if x.id == r.id then { x with attempts := r.attempts + 1 } else x) =
        unexpiredFor phone now x := by
    intro x
    cases h : x.id == r.id <;> simp [h, unexpiredFor]
  have hf2 : ∀ x : VerificationRecord,
      unexpiredFor phone now (if x.id == r.id then { x with verified := true } else x) =
        unexpiredFor phone now x := by
    intro x
    cases h : x.id == r.id <;> simp [h, unexpiredFor]
  refine ⟨by rw [hstep], ?_⟩
  rw [hstep]
  show ((db.map _).map _).filter (unexpiredFor phone now) = _
  rw [filter_map_preserve _ hf2, filter_map_preserve _ hf1, hq]
  simp

/-- C5 witness: the correct code on a fresh concrete record verifies it and
stores the incremented attempt counter. -/
theorem verifyCode_correct_code_success_witness :
    (([⟨1, "p", "123456", 700, 0, false⟩] : List VerificationRecord).filter
        (unexpiredFor "p" 0) = [⟨1, "p", "123456", 700, 0, false⟩]) ∧
    (verifyCode [⟨1, "p", "123456", 700, 0, false⟩] "p" "123456" 0).1 =
      { success := true, message := "Phone verified successfully" } ∧
    ((verifyCode [⟨1, "p", "123456", 700, 0, false⟩] "p" "123456" 0).2).filter
        (unexpiredFor "p" 0) = [⟨1, "p", "123456", 700, 1, true⟩] :=
  ⟨by decide,
   (verifyCode_correct_code_success _ _ _ ⟨1, "p", "123456", 700, 0, false⟩
     (by decide) rfl (by decide)).1,
   (verifyCode_correct_code_success _ _ _ ⟨1, "p", "123456", 700, 0, false⟩
     (by decide) rfl (by decide)).2⟩

/-- C3: on the single unexpired, unverified record with 4 stored attempts, the
incremented count reaches 5, so `verifyCode` deletes the record and reports
too many attempts whatever code was submitted; a subsequent call for the phone
then reports expired-or-not-found, not wrong-code. -/
theorem verifyCode_fifth_attempt_deletes (db : List VerificationRecord)
    (phone code : String) (now now2 : Nat) (r : VerificationRecord)
    (hq : db.filter (unexpiredFor phone now) = [r])
    (hv : r.verified = false) (ha : r.attempts = 4) (hnow : now ≤ now2) :
    (verifyCode db phone code now).1 =
      { success := false, message := "Too many failed attempts. Please request a new code." } ∧
    ∀ code2 : String,
      (verifyCode ((verifyCode db phone code now).2) phone code2 now2).1 =
        { success := false,
          message := "Verification code expired or not found. Please request a new code." } := by
  have hstep : verifyCode db phone code now =
      ({ success := false, message := "Too many failed attempts. Please request a new code." },
       db.filter (fun x => !(x.id == r.id))) := by
    unfold verifyCode
    rw [hq]
    simp [hv, ha]
  refine ⟨by rw [hstep], ?_⟩
  intro code2
  rw [hstep]
  have hempty : (db.filter (fun x => !(x.id == r.id))).filter (unexpiredFor phone now2) = [] := by
    rw [List.filter_filter, List.filter_eq_nil_iff]
    intro a ha'
    simp only [Bool.and_eq_true, Bool.not_eq_true', unexpiredFor, beq_iff_eq,
      decide_eq_true_eq, not_and]
    rintro ⟨hph, hexp⟩
    have hmem : a ∈ db.filter (unexpiredFor phone now) := by
      rw [List.mem_filter]
      refine ⟨ha', ?_⟩
      simp only [unexpiredFor, beq_iff_eq, Bool.and_eq_true, decide_eq_true_eq]
      exact ⟨hph, by omega⟩
    rw [hq] at hmem
    have haeq : a = r := by simpa using hmem
    subst haeq
    simp
  show (verifyCode (db.filter fun x => !(x.id == r.id)) phone code2 now2).1 = _
  unfold verifyCode
  rw [hempty]

/-- C3 witness: a fifth attempt on a concrete record deletes it even with the
matching code, and the next check reports not-found. -/
theorem verifyCode_fifth_attempt_deletes_witness :
    (([⟨1, "p", "123456", 700, 4, false⟩] : List VerificationRecord).filter
        (unexpiredFor "p" 0) = [⟨1, "p", "123456", 700, 4, false⟩]) ∧
    (verifyCode [⟨1, "p", "123456", 700, 4, false⟩] "p" "123456" 0).1 =
      { success := false, message := "Too many failed attempts. Please request a new code." } ∧
    (verifyCode ((verifyCode [⟨1, "p", "123456", 700, 4, false⟩] "p" "123456" 0).2)
        "p" "123456" 0).1 =
      { success := false,
        message := "Verification code expired or not found. Please request a new code." } :=
  ⟨by decide,
   (verifyCode_fifth_attempt_deletes _ _ "123456" 0 0 ⟨1, "p", "123456", 700, 4, false⟩
     (by decide) rfl rfl (by decide)).1,
   (verifyCode_fifth_attempt_deletes _ _ "123456" 0 0 ⟨1, "p", "123456", 700, 4, false⟩
     (by decide) rfl rfl (by decide)).2 "123456"⟩

/-- C6: from availability input `"09:00 - 17:00"` and creation date
`dateString`, `createDoctor` stores start timestamp `dateString T 09:00`,
end timestamp `dateString T 17:00`, and a display clone of the start. -/
theorem createDoctor_availability_times (dateString : String) :
    createDoctorTimes ["09:00 - 17:00"] dateString =
      { availability := dateString ++ "T" ++ "09:00"
        availabilityEndTime := dateString ++ "T" ++ "17:00"
        availabilityDisplay := dateString ++ "T" ++ "09:00" } := by
  have hsplit : jsSplit "09:00 - 17:00" " - " = ["09:00", "17:00"] := by decide
  simp [createDoctorTimes, hsplit]

/-- C7: blob deletion in `deleteDoctor` is attempted exactly when the stored
image is non-empty and not the default placeholder, and whether or not the
blob deletion fails, the document is deleted and the call returns success. -/
theorem deleteDoctor_blob_failure_swallowed (image : String) (blobFails : Bool) :
    deleteDoctor image blobFails false =
      Except.ok
        { blobDeleteAttempted := image ≠ "" && !(strIncludes image doctorPlaceholder)
          documentDeleted := true
          success := true } := by
  unfold deleteDoctor
  cases hfi : extractFileId image <;> cases blobFails <;>
    cases hw : (image ≠ "" && !(strIncludes image doctorPlaceholder) : Bool) <;>
      simp [hfi, hw]

/-- Prior appointment used by the C1 counterexample: a cancelled appointment
whose stored cancellation reason is `"conflict"`. -/
def cexCancelledAppointment : Appointment :=
  { primaryPhysician := "Dr. Green"
    schedule := 100
    status := Status.cancelled
    reason := "checkup"
    note := ""
    cancellationReason := some "conflict" }

/-- Form values of the C1 counterexample: the form for that appointment, whose
`cancellationReason` field defaulted to the stored `"conflict"`, submitted with
`type = "schedule"`. -/
def cexScheduleValues : AppointmentFormValues :=
  { primaryPhysician := "Dr. Green"
    schedule := 200
    reason := "checkup"
    note := ""
    cancellationReason := "conflict" }

/-- Patch produced by the submit handler in the C1 counterexample. -/
def cexSchedulePatch : AppointmentPatch :=
  { primaryPhysician := "Dr. Green"
    schedule := 200
    status := Status.scheduled
    cancellationReason := "conflict" }

/-- C1 counterexample: the schedule update built by `handleAppointmentSubmit`
always carries the form's `cancellationReason`, so re-scheduling a previously
cancelled appointment stores `status = scheduled` together with a populated
`cancellationReason` — the claimed iff invariant fails, and a schedule update
does set `cancellationReason`. -/
theorem scheduleUpdate_populates_cancellationReason :
    handleAppointmentSubmit FormType.schedule (some "patient1") "user1" cexScheduleValues =
      SubmitOutcome.update cexSchedulePatch ∧
    (updateAppointment cexCancelledAppointment cexSchedulePatch).status = Status.scheduled ∧
    reasonPopulated (updateAppointment cexCancelledAppointment cexSchedulePatch) = true ∧
    ¬(reasonPopulated (updateAppointment cexCancelledAppointment cexSchedulePatch) = true ↔
        (updateAppointment cexCancelledAppointment cexSchedulePatch).status = Status.cancelled) := by
  decide

/-- C1 amended: creating an appointment never sets `cancellationReason` (and
stores status pending); a cancel update requires (by the cancel schema) and
stores a non-empty `cancellationReason` with status cancelled; a schedule
update stores status scheduled but passes the form's `cancellationReason`
through verbatim rather than clearing it. -/
theorem appointment_cancellationReason_behavior (a : Appointment)
    (v : AppointmentFormValues) (pid userId : String)
    (hval : cancelFormValid v = true) :
    (∀ info, handleAppointmentSubmit FormType.create (some pid) userId v =
        SubmitOutcome.startPayment info →
      (createAppointment info).cancellationReason = none ∧
      (createAppointment info).status = Status.pending) ∧
    (∀ p, handleAppointmentSubmit FormType.cancel (some pid) userId v =
        SubmitOutcome.update p →
      (updateAppointment a p).status = Status.cancelled ∧
      (updateAppointment a p).cancellationReason = some v.cancellationReason ∧
      reasonPopulated (updateAppointment a p) = true) ∧
    (∀ p, handleAppointmentSubmit FormType.schedule (some pid) userId v =
        SubmitOutcome.update p →
      (updateAppointment a p).status = Status.scheduled ∧
      (updateAppointment a p).cancellationReason = some v.cancellationReason) := by
  refine ⟨?_, ?_, ?_⟩
  · intro info hinfo
    simp only [handleAppointmentSubmit, statusOfType, SubmitOutcome.startPayment.injEq] at hinfo
    subst hinfo
    exact ⟨rfl, rfl⟩
  · intro p hp
    simp only [handleAppointmentSubmit, statusOfType, SubmitOutcome.update.injEq] at hp
    subst hp
    refine ⟨rfl, rfl, ?_⟩
    simpa [reasonPopulated, updateAppointment, cancelFormValid] using hval
  · intro p hp
    simp only [handleAppointmentSubmit, statusOfType, SubmitOutcome.update.injEq] at hp
    subst hp
    exact ⟨rfl, rfl⟩

/-- Patch produced by the submit handler on the cancel path for the witness
form values. -/
def cexCancelPatch : AppointmentPatch :=
  { primaryPhysician := "Dr. Green"
    schedule := 200
    status := Status.cancelled
    cancellationReason := "conflict" }

/-- C1 amended witness: concrete form values with a non-empty cancellation
reason, pushed through the cancel path. -/
theorem appointment_cancellationReason_behavior_witness :
    cancelFormValid cexScheduleValues = true ∧
    (updateAppointment cexCancelledAppointment cexCancelPatch).status = Status.cancelled ∧
    (updateAppointment cexCancelledAppointment cexCancelPatch).cancellationReason =
      some cexScheduleValues.cancellationReason ∧
    reasonPopulated (updateAppointment cexCancelledAppointment cexCancelPatch) = true :=
  ⟨by decide,
   (appointment_cancellationReason_behavior cexCancelledAppointment cexScheduleValues
     "patient1" "user1" (by decide)).2.1 cexCancelPatch (by decide)⟩

end Healthcare
